import Mathlib

/-!
Shallow embedding of the protocol engine of the `Banking_system` repository
(a peer-to-peer bank node: `src/commands.py`, `src/server.py`).

Conventions of the embedding:
* Python strings are Lean `String`s; the Python string operations used by the
  code (`str.strip()`, `str.split()` with no argument, `str.split("/")`,
  `str.upper()`, `int(...)`, `str(...)` / f-string interpolation) are embedded
  as executable Lean functions over the character list of the string.  The
  embedding covers the ASCII fragment of these operations (the protocol and
  every claim operate on ASCII data); Python additionally treats some Unicode
  characters as whitespace or digits, which is noted where relevant.
* The database-backed `AccountRepository` (out of scope per the spec, an
  external collaborator) is an oracle `Store` of boolean/optional results,
  and every handler also returns a `Trace` recording exactly which store
  operations were invoked and which peer forwards were issued, so that
  claims of the form "the Account Store is not touched" are statable.
* `server.forward_to_peer` is modelled twice, at the two levels the code has:
  inside `CommandHandler` it is an opaque function argument
  `fwd : String → String → String` (peer ip, raw command line → response),
  and as `BankServer.forward_to_peer`, a faithful model of the port-probing
  loop where wall-clock readings and connection-attempt outcomes are oracles.
* Wall-clock readings (`time.time()` differences) are rationals.
-/

/-- Python `str.strip()` on ASCII whitespace: drop leading and trailing
whitespace characters. -/
def pyStrip (s : String) : String :=
  String.mk (((s.data.dropWhile Char.isWhitespace).reverse.dropWhile
      Char.isWhitespace).reverse)

/-- Worker for Python `str.split()` with no separator: split on runs of
whitespace, discarding empty pieces.  `acc` holds the characters of the word
currently being read, in reverse. -/
def splitWsAux : List Char → List Char → List (List Char)
  | [], acc => if acc = [] then [] else [acc.reverse]
  | c :: cs, acc =>
    if c.isWhitespace then
      if acc = [] then splitWsAux cs [] else acc.reverse :: splitWsAux cs []
    else splitWsAux cs (c :: acc)

/-- Python `str.split()` with no separator (used by
`CommandHandler.process_command` to tokenize the command line). -/
def pySplitWs (s : String) : List String :=
  (splitWsAux s.data []).map String.mk

/-- Worker for Python `str.split("/")`: split at every `'/'`, keeping empty
pieces (so `"123/"` splits into `["123", ""]`, as in Python). -/
def splitSlashAux : List Char → List (List Char)
  | [] => [[]]
  | c :: cs =>
    if c = '/' then [] :: splitSlashAux cs
    else
      match splitSlashAux cs with
      | [] => [[c]]
      | p :: ps => (c :: p) :: ps

/-- Python `account_info.split("/")` as used by the AD/AW/AB/AR handlers. -/
def pySplitSlash (s : String) : List String :=
  (splitSlashAux s.data).map String.mk

/-- Worker for the digit string accepted by Python `int(...)`: decimal digits
with single underscores allowed strictly between digits.  `acc` is the value
of the digits consumed so far. -/
def parseDigitsUAux : List Char → Nat → Option Nat
  | [], acc => some acc
  | '_' :: c :: cs, acc =>
    if c.isDigit then parseDigitsUAux cs (acc * 10 + (c.toNat - 48)) else none
  | ['_'], _ => none
  | c :: cs, acc =>
    if c.isDigit then parseDigitsUAux cs (acc * 10 + (c.toNat - 48)) else none

/-- Nonempty decimal digit string (single underscores allowed between
digits), as accepted by Python `int(...)` after the optional sign. -/
def parseDigitsU : List Char → Option Nat
  | [] => none
  | c :: cs => if c.isDigit then parseDigitsUAux cs (c.toNat - 48) else none

/-- Python `int(token)` on the ASCII fragment: optional surrounding
whitespace, an optional `+`/`-` sign, then a nonempty digit string.  Returns
`none` exactly when Python raises `ValueError`.  In particular negative
literals such as `"-50"` parse successfully. -/
def pyParseInt (s : String) : Option Int :=
  let l := ((s.data.dropWhile Char.isWhitespace).reverse.dropWhile
      Char.isWhitespace).reverse
  match l with
  | '+' :: rest => (parseDigitsU rest).map (fun n => (n : Int))
  | '-' :: rest => (parseDigitsU rest).map (fun n => -(n : Int))
  | rest => (parseDigitsU rest).map (fun n => (n : Int))

/-- Python `str.upper()` on the ASCII fragment (used on the verb token). -/
def pyUpper (s : String) : String :=
  String.mk (s.data.map Char.toUpper)

/-- Python f-string interpolation of a value that is either an integer or
`None` (the repository prints `None` into the response on a database error,
e.g. `BA None`). -/
def pyShow : Option Int → String
  | none => "None"
  | some i => toString i

/-- One invocation of an `AccountRepository` method, as recorded in a
handler's trace.  Account numbers reach the repository as the raw string
token taken from the command line (the repository converts them with
`int(...)` internally), so deposit/withdraw/balance/remove carry a `String`;
`account_exists`/`create_account` are called from `BankServer.create_account`
with the freshly generated `Nat`. -/
inductive StoreOp
  | deposit (account : String) (amount : Int)
  | withdraw (account : String) (amount : Int)
  | get_balance (account : String)
  | remove (account : String)
  | get_total_balance
  | count_accounts
  | account_exists (number : Nat)
  | create_account (number : Nat) (ip : String)
deriving DecidableEq, Repr

/-- Effects performed while handling one command: the Account Store methods
invoked (in order) and the peer forwards issued as (peer ip, raw line). -/
structure Trace where
  storeOps : List StoreOp
  forwards : List (String × String)
deriving DecidableEq, Repr

/-- Oracle for the database-backed `AccountRepository` (external collaborator
per the spec): each method's observable result.  The repository never raises
(every method catches its own exceptions and returns a failure value), which
is why plain functions model it faithfully. -/
structure Store where
  deposit : String → Int → Bool
  withdraw : String → Int → Bool
  get_balance : String → Option Int
  remove : String → Bool
  get_total_balance : Option Int
  count_accounts : Option Int
  account_exists : Nat → Bool
  create_account : Nat → String → Bool

namespace CommandHandler

/-- `CommandHandler.handle_bc` (src/commands.py): `server.get_local_ip()`
just returns the configured `HOST`, so the handler answers `BC <localIp>`. -/
def handle_bc (localIp : String) : String × Trace :=
  ("BC " ++ localIp, ⟨[], []⟩)

/-- `CommandHandler.handle_ad` (src/commands.py).  `parts` is the tokenized
line; `fwd` is `server.forward_to_peer`.  Mirrors the source exactly: a
3-token check, `int(parts[2])`, `parts[1].split("/")` into exactly two names
(a `ValueError` from either yields `ER Invalid deposit format`), the
string-inequality routing test against the local ip, and the f-string
re-serialization `f"AD {account_number}/{bank_ip} {amount}"` on forward. -/
def handle_ad (localIp : String) (st : Store) (fwd : String → String → String)
    (parts : List String) : String × Trace :=
  match parts with
  | [_, account_info, amountTok] =>
    match pyParseInt amountTok with
    | none => ("ER Invalid deposit format", ⟨[], []⟩)
    | some amount =>
      match pySplitSlash account_info with
      | [account_number, bank_ip] =>
        if bank_ip ≠ localIp then
          (fwd bank_ip ("AD " ++ account_number ++ "/" ++ bank_ip ++ " " ++ toString amount),
           ⟨[], [(bank_ip, "AD " ++ account_number ++ "/" ++ bank_ip ++ " " ++ toString amount)]⟩)
        else if st.deposit account_number amount then
          ("AD", ⟨[StoreOp.deposit account_number amount], []⟩)
        else
          ("ER Deposit failed", ⟨[StoreOp.deposit account_number amount], []⟩)
      | _ => ("ER Invalid deposit format", ⟨[], []⟩)
  | _ => ("ER Invalid AD format", ⟨[], []⟩)

/-- `CommandHandler.handle_aw` (src/commands.py), same shape as `handle_ad`
with the withdrawal messages and `repository.withdraw`. -/
def handle_aw (localIp : String) (st : Store) (fwd : String → String → String)
    (parts : List String) : String × Trace :=
  match parts with
  | [_, account_info, amountTok] =>
    match pyParseInt amountTok with
    | none => ("ER Invalid withdrawal format", ⟨[], []⟩)
    | some amount =>
      match pySplitSlash account_info with
      | [account_number, bank_ip] =>
        if bank_ip ≠ localIp then
          (fwd bank_ip ("AW " ++ account_number ++ "/" ++ bank_ip ++ " " ++ toString amount),
           ⟨[], [(bank_ip, "AW " ++ account_number ++ "/" ++ bank_ip ++ " " ++ toString amount)]⟩)
        else if st.withdraw account_number amount then
          ("AW", ⟨[StoreOp.withdraw account_number amount], []⟩)
        else
          ("ER Not enough funds", ⟨[StoreOp.withdraw account_number amount], []⟩)
      | _ => ("ER Invalid withdrawal format", ⟨[], []⟩)
  | _ => ("ER Invalid AW format", ⟨[], []⟩)

/-- `CommandHandler.handle_ab` (src/commands.py): 2-token check, account
split, routing test, `repository.get_balance` (`None` means not found). -/
def handle_ab (localIp : String) (st : Store) (fwd : String → String → String)
    (parts : List String) : String × Trace :=
  match parts with
  | [_, account_info] =>
    match pySplitSlash account_info with
    | [account_number, bank_ip] =>
      if bank_ip ≠ localIp then
        (fwd bank_ip ("AB " ++ account_number ++ "/" ++ bank_ip),
         ⟨[], [(bank_ip, "AB " ++ account_number ++ "/" ++ bank_ip)]⟩)
      else
        match st.get_balance account_number with
        | some balance =>
          ("AB " ++ toString balance, ⟨[StoreOp.get_balance account_number], []⟩)
        | none => ("ER Account not found", ⟨[StoreOp.get_balance account_number], []⟩)
    | _ => ("ER Invalid account format", ⟨[], []⟩)
  | _ => ("ER Invalid AB format", ⟨[], []⟩)

/-- `CommandHandler.handle_ar` (src/commands.py): 2-token check, account
split, routing test, `repository.remove` (false when balance nonzero or the
account is absent). -/
def handle_ar (localIp : String) (st : Store) (fwd : String → String → String)
    (parts : List String) : String × Trace :=
  match parts with
  | [_, account_info] =>
    match pySplitSlash account_info with
    | [account_number, bank_ip] =>
      if bank_ip ≠ localIp then
        (fwd bank_ip ("AR " ++ account_number ++ "/" ++ bank_ip),
         ⟨[], [(bank_ip, "AR " ++ account_number ++ "/" ++ bank_ip)]⟩)
      else if st.remove account_number then
        ("AR", ⟨[StoreOp.remove account_number], []⟩)
      else
        ("ER Cannot remove account", ⟨[StoreOp.remove account_number], []⟩)
    | _ => ("ER Invalid account format", ⟨[], []⟩)
  | _ => ("ER Invalid AR format", ⟨[], []⟩)

/-- `CommandHandler.handle_ba` (src/commands.py): `f"BA {total}"` where the
repository returns the total, or `None` after a database error. -/
def handle_ba (st : Store) : String × Trace :=
  ("BA " ++ pyShow st.get_total_balance, ⟨[StoreOp.get_total_balance], []⟩)

/-- `CommandHandler.handle_bn` (src/commands.py): `f"BN {count}"`. -/
def handle_bn (st : Store) : String × Trace :=
  ("BN " ++ pyShow st.count_accounts, ⟨[StoreOp.count_accounts], []⟩)

end CommandHandler

namespace BankServer

/-- `range(65525, 65536)` from `BankServer.forward_to_peer`
(src/server.py): the 11 candidate peer ports, in iteration order. -/
def possible_ports : List Nat :=
  (List.range 11).map (fun k => 65525 + k)

/-- One connection attempt of the forwarding loop: the port probed, the
timeout passed to `socket.create_connection` for that attempt, and the
elapsed time (`time.time() - start_time`) observed at the budget check
immediately before the attempt. -/
structure AttemptRec where
  port : Nat
  connTimeout : Rat
  elapsedAtStart : Rat
deriving DecidableEq, Repr

/-- Loop body of `BankServer.forward_to_peer` (src/server.py).  `k` is the
iteration index (the port probed at index `k` is `possible_ports[k]`),
`elapsed k` is the value of `time.time() - start_time` at the budget check of
iteration `k`, and `attempt k` is the outcome of the connection attempt of
iteration `k`: `some r` when a response line `r` was received (already
`.strip()`ed, as in the source), `none` when any exception (connect refusal,
timeout, read error) was raised.  The source passes the constant `TIMEOUT` as
the per-attempt connection timeout, which the trace records. -/
def forward_to_peerAux (TIMEOUT : Rat) (elapsed : Nat → Rat)
    (attempt : Nat → Option String) :
    Nat → List Nat → List AttemptRec → String × List AttemptRec
  | _, [], recs => ("ER Peer connection failed", recs)
  | k, port :: rest, recs =>
    if elapsed k > TIMEOUT then ("ER Request timeout", recs)
    else
      match attempt k with
      | some r => (r, recs ++ [⟨port, TIMEOUT, elapsed k⟩])
      | none =>
        forward_to_peerAux TIMEOUT elapsed attempt (k + 1) rest
          (recs ++ [⟨port, TIMEOUT, elapsed k⟩])

/-- `BankServer.forward_to_peer` (src/server.py): iterate the candidate
ports in order, checking the time budget before each attempt; return the
first received response immediately, `ER Request timeout` when the budget is
found exceeded, and `ER Peer connection failed` when all candidates fail.
Also returns the list of attempts actually started. -/
def forward_to_peer (TIMEOUT : Rat) (elapsed : Nat → Rat)
    (attempt : Nat → Option String) : String × List AttemptRec :=
  forward_to_peerAux TIMEOUT elapsed attempt 0 possible_ports []

/-- Attempt loop of `BankServer.create_account` (src/server.py).  `rand i`
is the value of `random.randint(10000, 99999)` drawn at iteration `i`
(randomness is an oracle; the 10000–99999 range is a hypothesis on the
oracle in the theorems).  `fuel` counts the remaining iterations of
`for i in range(5)`; `ops` accumulates the store operations performed. -/
def create_accountAux (rand : Nat → Nat) (st : Store) (ip : String) :
    Nat → Nat → List StoreOp → String × Trace
  | _, 0, ops => ("ER Unable to create account", ⟨ops, []⟩)
  | i, fuel + 1, ops =>
    let n := rand i
    if st.account_exists n then
      create_accountAux rand st ip (i + 1) fuel (ops ++ [StoreOp.account_exists n])
    else if st.create_account n ip then
      ("AC " ++ toString n ++ "/" ++ ip,
       ⟨ops ++ [StoreOp.account_exists n, StoreOp.create_account n ip], []⟩)
    else
      ("ER Database error",
       ⟨ops ++ [StoreOp.account_exists n, StoreOp.create_account n ip], []⟩)

/-- `BankServer.create_account` (src/server.py): up to 5 attempts, each
drawing a number and checking existence; the first unused number is created
(bound to the caller's ip) and reported as `AC <number>/<ip>`; if all 5
draws already exist the result is `ER Unable to create account`. -/
def create_account (rand : Nat → Nat) (st : Store) (ip : String) : String × Trace :=
  create_accountAux rand st ip 0 5 []

/-- Per-line dispatch step of `BankServer.handle_client` (src/server.py,
lines 66–75): the router (`process_command`) is run as a state transformer
`route` on the state `s` it affects; `elapsed` is the observed value of
`time.time() - start_time` after the router returned.  When `elapsed`
exceeds `TIMEOUT` the router's response string is replaced by
`ER Processing timeout`, but the state the router produced is kept — there
is no rollback. -/
def dispatch_line {σ : Type} (TIMEOUT elapsed : Rat) (route : σ → String × σ)
    (s : σ) : String × σ :=
  let r := route s
  (if elapsed > TIMEOUT then "ER Processing timeout" else r.1, r.2)

end BankServer

namespace CommandHandler

/-- `CommandHandler.process_command` (src/commands.py): tokenize the line,
dispatch on the upper-cased first token.  `clientIp` is `address[0]`, the
observed ip of the connected client (used only by AC); `rand` is the
randomness oracle consumed by `BankServer.create_account`.  Extra tokens
after the zero-argument verbs BC/AC/BA/BN are ignored by the source, and
this model mirrors that. -/
def process_command (localIp : String) (st : Store)
    (fwd : String → String → String) (rand : Nat → Nat) (clientIp : String)
    (command : String) : String × Trace :=
  match pySplitWs (pyStrip command) with
  | [] => ("ER Invalid command", ⟨[], []⟩)
  | p0 :: rest =>
    let cmd := pyUpper p0
    if cmd = "BC" then handle_bc localIp
    else if cmd = "AC" then BankServer.create_account rand st clientIp
    else if cmd = "AD" then handle_ad localIp st fwd (p0 :: rest)
    else if cmd = "AW" then handle_aw localIp st fwd (p0 :: rest)
    else if cmd = "AB" then handle_ab localIp st fwd (p0 :: rest)
    else if cmd = "AR" then handle_ar localIp st fwd (p0 :: rest)
    else if cmd = "BA" then handle_ba st
    else if cmd = "BN" then handle_bn st
    else ("ER Unknown command", ⟨[], []⟩)

/-- The eight protocol verbs, in the order of the source's dispatch chain. -/
def verbs : List String := ["BC", "AC", "AD", "AW", "AB", "AR", "BA", "BN"]

/-- `CommandHandler.process_command` at the level of its `try/except`
boundary: the body of each dispatched verb is an oracle
`handler : verb → Except exn response` (the source's handlers may raise
arbitrary exceptions, e.g. out of the database layer), and the single
`except Exception` of the source converts any raised exception into
`ER Internal processing error`.  The tokenization and the unknown/empty
branches sit outside the `try` in the source only as far as `strip`/`split`
go, which cannot raise. -/
def process_command_try (handler : String → Except String String)
    (command : String) : String :=
  match pySplitWs (pyStrip command) with
  | [] => "ER Invalid command"
  | p0 :: _ =>
    let cmd := pyUpper p0
    if cmd ∈ verbs then
      match handler cmd with
      | Except.ok r => r
      | Except.error _ => "ER Internal processing error"
    else "ER Unknown command"

end CommandHandler

/-- Concrete store oracle used to instantiate theorems on concrete inputs:
every operation succeeds, no account exists yet, all balances read 0. -/
def testStore : Store where
  deposit := fun _ _ => true
  withdraw := fun _ _ => true
  get_balance := fun _ => some 0
  remove := fun _ => true
  get_total_balance := some 0
  count_accounts := some 0
  account_exists := fun _ => false
  create_account := fun _ _ => true

/-- Concrete peer-forward oracle for instantiations: answers as an
unreachable peer would. -/
def testFwd : String → String → String := fun _ _ => "ER Peer connection failed"

/-- Concrete randomness oracle for instantiations: always draws 54231. -/
def testRand : Nat → Nat := fun _ => 54231

/-- C1: the claim asserts that a negative amount token is a parse failure
that never reaches the Account Store.  The source parses the amount with
`int(parts[2])`, which accepts negative literals, and performs no sign
check, so `AD 123/1.2.3.4 -50` (with local address `1.2.3.4`) deposits
`-50`: the store IS invoked with a negative amount and the response is
`AD`, not an `ER` line. -/
theorem C1_counterexample :
    pyParseInt "-50" = some (-50) ∧
    CommandHandler.handle_ad "1.2.3.4" testStore testFwd ["AD", "123/1.2.3.4", "-50"]
      = ("AD", ⟨[StoreOp.deposit "123" (-50)], []⟩) :=
  ⟨rfl, rfl⟩

/-- C1 (amended): for every AD or AW command line whose amount token is not
an integer literal, processing fails with that verb's parse-error `ER`
response and no Account Store operation and no forward is invoked; integer
tokens — including negative ones — are accepted, so amounts passed to the
Account Store are not guaranteed non-negative. -/
theorem C1_claim (localIp : String) (st : Store)
    (fwd : String → String → String) (a b c : String)
    (h : pyParseInt c = none) :
    CommandHandler.handle_ad localIp st fwd [a, b, c]
      = ("ER Invalid deposit format", ⟨[], []⟩) ∧
    CommandHandler.handle_aw localIp st fwd [a, b, c]
      = ("ER Invalid withdrawal format", ⟨[], []⟩) := by
  constructor
  · simp [CommandHandler.handle_ad, h]
  · simp [CommandHandler.handle_aw, h]

/-- C1 witness: the theorem applied at the non-integer token `"xx"`. -/
theorem C1_witness :
    pyParseInt "xx" = none ∧
    (CommandHandler.handle_ad "1.2.3.4" testStore testFwd ["AD", "123/1.2.3.4", "xx"]
        = ("ER Invalid deposit format", ⟨[], []⟩) ∧
      CommandHandler.handle_aw "1.2.3.4" testStore testFwd ["AW", "123/1.2.3.4", "xx"]
        = ("ER Invalid withdrawal format", ⟨[], []⟩)) :=
  ⟨rfl,
   ⟨(C1_claim "1.2.3.4" testStore testFwd "AD" "123/1.2.3.4" "xx" rfl).1,
    (C1_claim "1.2.3.4" testStore testFwd "AW" "123/1.2.3.4" "xx" rfl).2⟩⟩

/-- C2: the claim asserts that an account token with an empty part on either
side of the `/` is a parse error and the command is neither executed nor
forwarded.  But Python's `"123/".split("/")` yields `["123", ""]`, which
unpacks into two names without a `ValueError`; the empty bank-IP `""`
differs from the local address, so `AB 123/` is FORWARDED (to peer ip `""`)
rather than rejected. -/
theorem C2_counterexample :
    pySplitSlash "123/" = ["123", ""] ∧
    CommandHandler.handle_ab "127.0.0.1" testStore testFwd ["AB", "123/"]
      = ("ER Peer connection failed", ⟨[], [("", "AB 123/")]⟩) :=
  ⟨rfl, rfl⟩

/-- C2 (amended): for every AD, AW, AB or AR command line, the
account-reference token is accepted whenever it splits on `/` into exactly
two parts, empty parts included; a token with no `/` or with more than one
`/` yields that verb's account-format parse error, and then no store
operation and no forward is invoked. -/
theorem C2_claim (localIp : String) (st : Store)
    (fwd : String → String → String) (a b c : String)
    (h : (pySplitSlash b).length ≠ 2) :
    CommandHandler.handle_ad localIp st fwd [a, b, c]
      = ("ER Invalid deposit format", ⟨[], []⟩) ∧
    CommandHandler.handle_aw localIp st fwd [a, b, c]
      = ("ER Invalid withdrawal format", ⟨[], []⟩) ∧
    CommandHandler.handle_ab localIp st fwd [a, b]
      = ("ER Invalid account format", ⟨[], []⟩) ∧
    CommandHandler.handle_ar localIp st fwd [a, b]
      = ("ER Invalid account format", ⟨[], []⟩) := by
  refine ⟨?_, ?_, ?_, ?_⟩
  · cases hc : pyParseInt c with
    | none => simp [CommandHandler.handle_ad, hc]
    | some amt =>
      rcases hb : pySplitSlash b with _ | ⟨x, _ | ⟨y, _ | ⟨z, t⟩⟩⟩
      · simp [CommandHandler.handle_ad, hc, hb]
      · simp [CommandHandler.handle_ad, hc, hb]
      · exact absurd (by rw [hb]; rfl) h
      · simp [CommandHandler.handle_ad, hc, hb]
  · cases hc : pyParseInt c with
    | none => simp [CommandHandler.handle_aw, hc]
    | some amt =>
      rcases hb : pySplitSlash b with _ | ⟨x, _ | ⟨y, _ | ⟨z, t⟩⟩⟩
      · simp [CommandHandler.handle_aw, hc, hb]
      · simp [CommandHandler.handle_aw, hc, hb]
      · exact absurd (by rw [hb]; rfl) h
      · simp [CommandHandler.handle_aw, hc, hb]
  · rcases hb : pySplitSlash b with _ | ⟨x, _ | ⟨y, _ | ⟨z, t⟩⟩⟩
    · simp [CommandHandler.handle_ab, hb]
    · simp [CommandHandler.handle_ab, hb]
    · exact absurd (by rw [hb]; rfl) h
    · simp [CommandHandler.handle_ab, hb]
  · rcases hb : pySplitSlash b with _ | ⟨x, _ | ⟨y, _ | ⟨z, t⟩⟩⟩
    · simp [CommandHandler.handle_ar, hb]
    · simp [CommandHandler.handle_ar, hb]
    · exact absurd (by rw [hb]; rfl) h
    · simp [CommandHandler.handle_ar, hb]

/-- C2 witness: the theorem applied at the slash-free token `"123"`. -/
theorem C2_witness :
    (pySplitSlash "123").length ≠ 2 ∧
    CommandHandler.handle_ab "1.2.3.4" testStore testFwd ["AB", "123"]
      = ("ER Invalid account format", ⟨[], []⟩) :=
  ⟨by decide,
   (C2_claim "1.2.3.4" testStore testFwd "AB" "123" "0" (by decide)).2.2.1⟩

/-- C3: for every AD, AW, AB or AR command whose bank-IP part differs from
the local address (exact string comparison), the handler returns exactly the
Peer Forwarder's response on the command re-serialized from its parsed
fields — same verb, same account number, same bank IP, and (for AD/AW) the
same integer amount, printed canonically by `str(int(...))` — and invokes no
Account Store operation whatever the forwarder's outcome (the forwarder
`fwd` is universally quantified, covering the no-port-responded case). -/
theorem C3_claim (localIp : String) (st : Store)
    (fwd : String → String → String) (v b c acc bip : String) (amt : Int)
    (hamt : pyParseInt c = some amt) (hsplit : pySplitSlash b = [acc, bip])
    (hip : bip ≠ localIp) :
    CommandHandler.handle_ad localIp st fwd [v, b, c]
      = (fwd bip ("AD " ++ acc ++ "/" ++ bip ++ " " ++ toString amt),
         ⟨[], [(bip, "AD " ++ acc ++ "/" ++ bip ++ " " ++ toString amt)]⟩) ∧
    CommandHandler.handle_aw localIp st fwd [v, b, c]
      = (fwd bip ("AW " ++ acc ++ "/" ++ bip ++ " " ++ toString amt),
         ⟨[], [(bip, "AW " ++ acc ++ "/" ++ bip ++ " " ++ toString amt)]⟩) ∧
    CommandHandler.handle_ab localIp st fwd [v, b]
      = (fwd bip ("AB " ++ acc ++ "/" ++ bip),
         ⟨[], [(bip, "AB " ++ acc ++ "/" ++ bip)]⟩) ∧
    CommandHandler.handle_ar localIp st fwd [v, b]
      = (fwd bip ("AR " ++ acc ++ "/" ++ bip),
         ⟨[], [(bip, "AR " ++ acc ++ "/" ++ bip)]⟩) := by
  refine ⟨?_, ?_, ?_, ?_⟩
  · simp [CommandHandler.handle_ad, hamt, hsplit, hip]
  · simp [CommandHandler.handle_aw, hamt, hsplit, hip]
  · simp [CommandHandler.handle_ab, hsplit, hip]
  · simp [CommandHandler.handle_ar, hsplit, hip]

/-- C3 witness: the theorem applied at account reference `55/9.9.9.9`,
amount `7`, with local address `1.2.3.4`. -/
theorem C3_witness :
    pyParseInt "7" = some 7 ∧ pySplitSlash "55/9.9.9.9" = ["55", "9.9.9.9"] ∧
    ("9.9.9.9" : String) ≠ "1.2.3.4" ∧
    CommandHandler.handle_ab "1.2.3.4" testStore testFwd ["AB", "55/9.9.9.9"]
      = (testFwd "9.9.9.9" ("AB " ++ "55" ++ "/" ++ "9.9.9.9"),
         ⟨[], [("9.9.9.9", "AB " ++ "55" ++ "/" ++ "9.9.9.9")]⟩) :=
  ⟨rfl, rfl, by decide,
   (C3_claim "1.2.3.4" testStore testFwd "AB" "55/9.9.9.9" "7" "55" "9.9.9.9" 7
      rfl rfl (by decide)).2.2.1⟩

/-- C6: the claim asserts that extra tokens after the zero-argument verbs
BC, AC, BA and BN yield a format error.  The source dispatches on the first
token only and calls the zero-argument handlers without inspecting the rest
of the line, so `BC x` is executed normally and answers `BC <localIp>`, not
an `ER` line. -/
theorem C6_counterexample :
    pySplitWs (pyStrip "BC x") = ["BC", "x"] ∧
    CommandHandler.process_command "1.2.3.4" testStore testFwd testRand "9.9.9.9" "BC x"
      = ("BC 1.2.3.4", ⟨[], []⟩) :=
  ⟨rfl, rfl⟩

/-- C6 (amended): an input line whose (case-insensitive) first token is AD,
AW, AB or AR but whose argument count differs from that verb's required
count yields that verb's format-error `ER` line with no store operation and
no forward; an empty line yields `ER Invalid command`; an unrecognized first
token yields `ER Unknown command`; but the zero-argument verbs BC, AC, BA
and BN ignore any extra tokens and execute normally. -/
theorem C6_claim (localIp clientIp : String) (st : Store)
    (fwd : String → String → String) (rand : Nat → Nat) (command : String) :
    (pySplitWs (pyStrip command) = [] →
      CommandHandler.process_command localIp st fwd rand clientIp command
        = ("ER Invalid command", ⟨[], []⟩)) ∧
    (∀ p0 rest, pySplitWs (pyStrip command) = p0 :: rest →
      (pyUpper p0 ∉ CommandHandler.verbs →
        CommandHandler.process_command localIp st fwd rand clientIp command
          = ("ER Unknown command", ⟨[], []⟩)) ∧
      (pyUpper p0 = "AD" → rest.length ≠ 2 →
        CommandHandler.process_command localIp st fwd rand clientIp command
          = ("ER Invalid AD format", ⟨[], []⟩)) ∧
      (pyUpper p0 = "AW" → rest.length ≠ 2 →
        CommandHandler.process_command localIp st fwd rand clientIp command
          = ("ER Invalid AW format", ⟨[], []⟩)) ∧
      (pyUpper p0 = "AB" → rest.length ≠ 1 →
        CommandHandler.process_command localIp st fwd rand clientIp command
          = ("ER Invalid AB format", ⟨[], []⟩)) ∧
      (pyUpper p0 = "AR" → rest.length ≠ 1 →
        CommandHandler.process_command localIp st fwd rand clientIp command
          = ("ER Invalid AR format", ⟨[], []⟩)) ∧
      (pyUpper p0 = "BC" →
        CommandHandler.process_command localIp st fwd rand clientIp command
          = CommandHandler.handle_bc localIp) ∧
      (pyUpper p0 = "AC" →
        CommandHandler.process_command localIp st fwd rand clientIp command
          = BankServer.create_account rand st clientIp) ∧
      (pyUpper p0 = "BA" →
        CommandHandler.process_command localIp st fwd rand clientIp command
          = CommandHandler.handle_ba st) ∧
      (pyUpper p0 = "BN" →
        CommandHandler.process_command localIp st fwd rand clientIp command
          = CommandHandler.handle_bn st)) := by
  constructor
  · intro h
    simp [CommandHandler.process_command, h]
  · intro p0 rest hp
    refine ⟨?_, ?_, ?_, ?_, ?_, ?_, ?_, ?_, ?_⟩
    · intro hnot
      simp only [CommandHandler.verbs, List.mem_cons, List.not_mem_nil, or_false,
        not_or] at hnot
      obtain ⟨h1, h2, h3, h4, h5, h6, h7, h8⟩ := hnot
      simp [CommandHandler.process_command, hp, h1, h2, h3, h4, h5, h6, h7, h8]
    · intro hv hlen
      rcases rest with _ | ⟨x, _ | ⟨y, _ | ⟨z, t⟩⟩⟩
      · simp [CommandHandler.process_command, hp, hv, CommandHandler.handle_ad]
      · simp [CommandHandler.process_command, hp, hv, CommandHandler.handle_ad]
      · exact absurd rfl hlen
      · simp [CommandHandler.process_command, hp, hv, CommandHandler.handle_ad]
    · intro hv hlen
      rcases rest with _ | ⟨x, _ | ⟨y, _ | ⟨z, t⟩⟩⟩
      · simp [CommandHandler.process_command, hp, hv, CommandHandler.handle_aw]
      · simp [CommandHandler.process_command, hp, hv, CommandHandler.handle_aw]
      · exact absurd rfl hlen
      · simp [CommandHandler.process_command, hp, hv, CommandHandler.handle_aw]
    · intro hv hlen
      rcases rest with _ | ⟨x, _ | ⟨y, t⟩⟩
      · simp [CommandHandler.process_command, hp, hv, CommandHandler.handle_ab]
      · exact absurd rfl hlen
      · simp [CommandHandler.process_command, hp, hv, CommandHandler.handle_ab]
    · intro hv hlen
      rcases rest with _ | ⟨x, _ | ⟨y, t⟩⟩
      · simp [CommandHandler.process_command, hp, hv, CommandHandler.handle_ar]
      · exact absurd rfl hlen
      · simp [CommandHandler.process_command, hp, hv, CommandHandler.handle_ar]
    · intro hv
      simp [CommandHandler.process_command, hp, hv]
    · intro hv
      simp [CommandHandler.process_command, hp, hv]
    · intro hv
      simp [CommandHandler.process_command, hp, hv]
    · intro hv
      simp [CommandHandler.process_command, hp, hv]

/-- C6 witness: the theorem applied at the line `AD 1` (one argument where
AD requires two). -/
theorem C6_witness :
    pySplitWs (pyStrip "AD 1") = ["AD", "1"] ∧ pyUpper "AD" = "AD" ∧
    (["1"] : List String).length ≠ 2 ∧
    CommandHandler.process_command "1.2.3.4" testStore testFwd testRand "9.9.9.9" "AD 1"
      = ("ER Invalid AD format", ⟨[], []⟩) :=
  ⟨rfl, rfl, by decide,
   ((C6_claim "1.2.3.4" "9.9.9.9" testStore testFwd testRand "AD 1").2
      "AD" ["1"] rfl).2.1 rfl (by decide)⟩

/-- Predicate marking existence checks in a store-operation trace (used to
bound how many times `create_account` consults the Account Store). -/
def isExistsCheck : StoreOp → Bool
  | StoreOp.account_exists _ => true
  | _ => false

/-- Each iteration of the account-number retry loop performs exactly one
existence check, so the whole loop performs at most `fuel` of them. -/
theorem create_accountAux_checks (rand : Nat → Nat) (st : Store) (ip : String) :
    ∀ fuel i ops,
      ((BankServer.create_accountAux rand st ip i fuel ops).2.storeOps.countP
          isExistsCheck)
        ≤ ops.countP isExistsCheck + fuel := by
  intro fuel
  induction fuel with
  | zero =>
    intro i ops
    simp [BankServer.create_accountAux]
  | succ f ih =>
    intro i ops
    simp only [BankServer.create_accountAux]
    by_cases h1 : st.account_exists (rand i) = true
    · rw [if_pos h1]
      refine le_trans (ih (i + 1) (ops ++ [StoreOp.account_exists (rand i)])) ?_
      simp [List.countP_append, isExistsCheck]
      omega
    · rw [if_neg h1]
      by_cases h2 : st.create_account (rand i) ip = true
      · rw [if_pos h2]
        simp [List.countP_append, isExistsCheck]
      · rw [if_neg h2]
        simp [List.countP_append, isExistsCheck]

/-- C7: account creation draws numbers from the 5-digit range 10000–99999
(`random.randint(10000, 99999)`, modelled by the oracle `rand` with the
range as a hypothesis) for at most 5 attempts, checking existence in the
Account Store each time; the first number found not to exist is used to
create the account and reported as `AC <number>/<clientAddress>` (when the
database insert succeeds), and if all 5 draws already exist the response is
the creation-failure line `ER Unable to create account`. -/
theorem C7_claim (rand : Nat → Nat) (st : Store) (ip : String)
    (hrange : ∀ i, i < 5 → 10000 ≤ rand i ∧ rand i ≤ 99999) :
    (∀ k, (hk : k < 5) → (∀ j, j < k → st.account_exists (rand j) = true) →
      st.account_exists (rand k) = false → st.create_account (rand k) ip = true →
      (BankServer.create_account rand st ip).1 = "AC " ++ toString (rand k) ++ "/" ++ ip ∧
      10000 ≤ rand k ∧ rand k ≤ 99999) ∧
    ((∀ i, i < 5 → st.account_exists (rand i) = true) →
      (BankServer.create_account rand st ip).1 = "ER Unable to create account") ∧
    ((BankServer.create_account rand st ip).2.storeOps.countP isExistsCheck ≤ 5) := by
  refine ⟨?_, ?_, ?_⟩
  · intro k hk hprev hex hcr
    refine ⟨?_, (hrange k hk).1, (hrange k hk).2⟩
    interval_cases k
    · simp [BankServer.create_account, BankServer.create_accountAux, hex, hcr]
    · have h0 := hprev 0 (by omega)
      simp [BankServer.create_account, BankServer.create_accountAux, h0, hex, hcr]
    · have h0 := hprev 0 (by omega)
      have h1 := hprev 1 (by omega)
      simp [BankServer.create_account, BankServer.create_accountAux, h0, h1, hex, hcr]
    · have h0 := hprev 0 (by omega)
      have h1 := hprev 1 (by omega)
      have h2 := hprev 2 (by omega)
      simp [BankServer.create_account, BankServer.create_accountAux, h0, h1, h2, hex, hcr]
    · have h0 := hprev 0 (by omega)
      have h1 := hprev 1 (by omega)
      have h2 := hprev 2 (by omega)
      have h3 := hprev 3 (by omega)
      simp [BankServer.create_account, BankServer.create_accountAux, h0, h1, h2, h3,
        hex, hcr]
  · intro hall
    have h0 := hall 0 (by omega)
    have h1 := hall 1 (by omega)
    have h2 := hall 2 (by omega)
    have h3 := hall 3 (by omega)
    have h4 := hall 4 (by omega)
    simp [BankServer.create_account, BankServer.create_accountAux, h0, h1, h2, h3, h4]
  · have h := create_accountAux_checks rand st ip 5 0 []
    simpa [BankServer.create_account] using h

/-- C7 witness: the theorem applied at the constant draw 54231 against the
empty store, where the first attempt succeeds. -/
theorem C7_witness :
    (∀ i, i < 5 → 10000 ≤ testRand i ∧ testRand i ≤ 99999) ∧
    testStore.account_exists (testRand 0) = false ∧
    testStore.create_account (testRand 0) "1.2.3.4" = true ∧
    (BankServer.create_account testRand testStore "1.2.3.4").1
      = "AC " ++ toString (testRand 0) ++ "/" ++ "1.2.3.4" :=
  ⟨fun i _ => by simp [testRand], rfl, rfl,
   ((C7_claim testRand testStore "1.2.3.4" (fun i _ => by simp [testRand])).1
      0 (by omega) (fun j hj => absurd hj (Nat.not_lt_zero j)) rfl rfl).1⟩

/-- C8: `process_command` routes every line to a total result: the
`try/except Exception` at the router boundary converts any exception raised
while a verb's handler executes (the handler body is the oracle `handler`)
into `ER Internal processing error`, and every possible outcome is a plain
response string — an empty-line error, an unknown-command error, the
internal-error downgrade, or the dispatched handler's own return value —
so no exception propagates to the session handler. -/
theorem C8_claim (handler : String → Except String String) (command : String) :
    (∀ p0 rest e, pySplitWs (pyStrip command) = p0 :: rest →
      pyUpper p0 ∈ CommandHandler.verbs →
      handler (pyUpper p0) = Except.error e →
      CommandHandler.process_command_try handler command
        = "ER Internal processing error") ∧
    (CommandHandler.process_command_try handler command = "ER Invalid command" ∨
     CommandHandler.process_command_try handler command = "ER Unknown command" ∨
     CommandHandler.process_command_try handler command = "ER Internal processing error" ∨
     ∃ v r, v ∈ CommandHandler.verbs ∧ handler v = Except.ok r ∧
       CommandHandler.process_command_try handler command = r) := by
  constructor
  · intro p0 rest e hp hmem herr
    simp [CommandHandler.process_command_try, hp, hmem, herr]
  · cases hp : pySplitWs (pyStrip command) with
    | nil =>
      left
      simp [CommandHandler.process_command_try, hp]
    | cons p0 rest =>
      by_cases hmem : pyUpper p0 ∈ CommandHandler.verbs
      · cases hh : handler (pyUpper p0) with
        | ok r =>
          right; right; right
          exact ⟨pyUpper p0, r, hmem, hh, by
            simp [CommandHandler.process_command_try, hp, hmem, hh]⟩
        | error e =>
          right; right; left
          simp [CommandHandler.process_command_try, hp, hmem, hh]
      · right; left
        simp [CommandHandler.process_command_try, hp, hmem]

/-- C8 witness: the theorem applied to a handler oracle that raises on every
verb, at the line `BC`. -/
theorem C8_witness :
    pySplitWs (pyStrip "BC") = ["BC"] ∧ pyUpper "BC" ∈ CommandHandler.verbs ∧
    CommandHandler.process_command_try (fun _ => Except.error "boom") "BC"
      = "ER Internal processing error" :=
  ⟨rfl, by decide,
   (C8_claim (fun _ => Except.error "boom") "BC").1 "BC" [] "boom" rfl
     (by decide) rfl⟩

/-- C9: in the per-line dispatch step of `handle_client`, when the elapsed
time observed after the router returns exceeds the processing-timeout
budget, the router's result string is discarded and `ER Processing timeout`
is sent in its place, while the state the router produced (e.g. an applied
deposit) is kept unchanged — there is no rollback. -/
theorem C9_claim {σ : Type} (TIMEOUT elapsed : Rat) (route : σ → String × σ)
    (s : σ) (h : elapsed > TIMEOUT) :
    BankServer.dispatch_line TIMEOUT elapsed route s
      = ("ER Processing timeout", (route s).2) := by
  simp [BankServer.dispatch_line, h]

/-- C9 witness: the theorem applied to a router step that deposits 100 into
an integer balance, with budget 5 and observed elapsed time 6: the timeout
response is sent but the deposit remains applied. -/
theorem C9_witness :
    ((6 : Rat) > 5) ∧
    BankServer.dispatch_line 5 6 (fun b : Int => ("AD", b + 100)) 0
      = ("ER Processing timeout", ((fun b : Int => ("AD", b + 100)) 0).2) :=
  ⟨by norm_num, C9_claim 5 6 (fun b : Int => ("AD", b + 100)) 0 (by norm_num)⟩

/-- If the budget check passes and a response is received at the `m`-th
remaining iteration, the forwarding loop returns that response, having
started exactly `m + 1` further attempts. -/
theorem forward_to_peerAux_success (TIMEOUT : Rat) (elapsed : Nat → Rat)
    (attempt : Nat → Option String) (r : String) :
    ∀ (ports : List Nat) (m k : Nat) (recs : List BankServer.AttemptRec),
      m < ports.length →
      (∀ j, j < m → elapsed (k + j) ≤ TIMEOUT ∧ attempt (k + j) = none) →
      elapsed (k + m) ≤ TIMEOUT → attempt (k + m) = some r →
      (BankServer.forward_to_peerAux TIMEOUT elapsed attempt k ports recs).1 = r ∧
      (BankServer.forward_to_peerAux TIMEOUT elapsed attempt k ports recs).2.length
        = recs.length + m + 1 := by
  intro ports
  induction ports with
  | nil =>
    intro m k recs hm
    exact absurd hm (by simp)
  | cons p rest ih =>
    intro m k recs hm hfail hok hres
    cases m with
    | zero =>
      rw [Nat.add_zero] at hok hres
      have hnot : ¬ (elapsed k > TIMEOUT) := not_lt.mpr hok
      simp [BankServer.forward_to_peerAux, hnot, hres]
    | succ m2 =>
      have h0 := hfail 0 (Nat.succ_pos m2)
      rw [Nat.add_zero] at h0
      have hnot : ¬ (elapsed k > TIMEOUT) := not_lt.mpr h0.1
      have hstep :
          BankServer.forward_to_peerAux TIMEOUT elapsed attempt k (p :: rest) recs
            = BankServer.forward_to_peerAux TIMEOUT elapsed attempt (k + 1) rest
                (recs ++ [⟨p, TIMEOUT, elapsed k⟩]) := by
        simp [BankServer.forward_to_peerAux, hnot, h0.2]
      rw [hstep]
      have hm2 : m2 < rest.length := by
        simp only [List.length_cons] at hm
        omega
      obtain ⟨ha, hb⟩ := ih m2 (k + 1) (recs ++ [⟨p, TIMEOUT, elapsed k⟩]) hm2
        (fun j hj => by
          have hh := hfail (j + 1) (Nat.succ_lt_succ hj)
          rwa [show k + (j + 1) = k + 1 + j by omega] at hh)
        (by rwa [show k + 1 + m2 = k + (m2 + 1) by omega])
        (by rwa [show k + 1 + m2 = k + (m2 + 1) by omega])
      refine ⟨ha, ?_⟩
      rw [hb]
      simp only [List.length_append, List.length_singleton]
      omega

/-- If the budget check at the `m`-th remaining iteration finds the budget
exceeded (all earlier attempts having failed within budget), the loop stops
with `ER Request timeout` and the `m`-th attempt is never started. -/
theorem forward_to_peerAux_timeout (TIMEOUT : Rat) (elapsed : Nat → Rat)
    (attempt : Nat → Option String) :
    ∀ (ports : List Nat) (m k : Nat) (recs : List BankServer.AttemptRec),
      m < ports.length →
      (∀ j, j < m → elapsed (k + j) ≤ TIMEOUT ∧ attempt (k + j) = none) →
      elapsed (k + m) > TIMEOUT →
      (BankServer.forward_to_peerAux TIMEOUT elapsed attempt k ports recs).1
        = "ER Request timeout" ∧
      (BankServer.forward_to_peerAux TIMEOUT elapsed attempt k ports recs).2.length
        = recs.length + m := by
  intro ports
  induction ports with
  | nil =>
    intro m k recs hm
    exact absurd hm (by simp)
  | cons p rest ih =>
    intro m k recs hm hfail hover
    cases m with
    | zero =>
      rw [Nat.add_zero] at hover
      simp [BankServer.forward_to_peerAux, hover]
    | succ m2 =>
      have h0 := hfail 0 (Nat.succ_pos m2)
      rw [Nat.add_zero] at h0
      have hnot : ¬ (elapsed k > TIMEOUT) := not_lt.mpr h0.1
      have hstep :
          BankServer.forward_to_peerAux TIMEOUT elapsed attempt k (p :: rest) recs
            = BankServer.forward_to_peerAux TIMEOUT elapsed attempt (k + 1) rest
                (recs ++ [⟨p, TIMEOUT, elapsed k⟩]) := by
        simp [BankServer.forward_to_peerAux, hnot, h0.2]
      rw [hstep]
      have hm2 : m2 < rest.length := by
        simp only [List.length_cons] at hm
        omega
      obtain ⟨ha, hb⟩ := ih m2 (k + 1) (recs ++ [⟨p, TIMEOUT, elapsed k⟩]) hm2
        (fun j hj => by
          have hh := hfail (j + 1) (Nat.succ_lt_succ hj)
          rwa [show k + (j + 1) = k + 1 + j by omega] at hh)
        (by rwa [show k + 1 + m2 = k + (m2 + 1) by omega])
      refine ⟨ha, ?_⟩
      rw [hb]
      simp only [List.length_append, List.length_singleton]
      omega

/-- If every remaining attempt stays within budget but fails, the loop
exhausts its candidates and reports `ER Peer connection failed`, having
started one attempt per candidate port. -/
theorem forward_to_peerAux_exhaust (TIMEOUT : Rat) (elapsed : Nat → Rat)
    (attempt : Nat → Option String) :
    ∀ (ports : List Nat) (k : Nat) (recs : List BankServer.AttemptRec),
      (∀ j, j < ports.length → elapsed (k + j) ≤ TIMEOUT ∧ attempt (k + j) = none) →
      (BankServer.forward_to_peerAux TIMEOUT elapsed attempt k ports recs).1
        = "ER Peer connection failed" ∧
      (BankServer.forward_to_peerAux TIMEOUT elapsed attempt k ports recs).2.length
        = recs.length + ports.length := by
  intro ports
  induction ports with
  | nil =>
    intro k recs _
    simp [BankServer.forward_to_peerAux]
  | cons p rest ih =>
    intro k recs hfail
    have h0 := hfail 0 (by simp)
    rw [Nat.add_zero] at h0
    have hnot : ¬ (elapsed k > TIMEOUT) := not_lt.mpr h0.1
    have hstep :
        BankServer.forward_to_peerAux TIMEOUT elapsed attempt k (p :: rest) recs
          = BankServer.forward_to_peerAux TIMEOUT elapsed attempt (k + 1) rest
              (recs ++ [⟨p, TIMEOUT, elapsed k⟩]) := by
      simp [BankServer.forward_to_peerAux, hnot, h0.2]
    rw [hstep]
    obtain ⟨ha, hb⟩ := ih (k + 1) (recs ++ [⟨p, TIMEOUT, elapsed k⟩])
      (fun j hj => by
        have hh := hfail (j + 1) (by simp only [List.length_cons]; omega)
        rwa [show k + (j + 1) = k + 1 + j by omega] at hh)
    refine ⟨ha, ?_⟩
    rw [hb]
    simp only [List.length_append, List.length_singleton, List.length_cons,
      List.length_nil]
    omega

/-- Every attempt record produced by the forwarding loop carries the full
budget `TIMEOUT` as its connection timeout (the source passes the constant
`TIMEOUT` to `socket.create_connection` on every attempt). -/
theorem forward_to_peerAux_connTimeout (TIMEOUT : Rat) (elapsed : Nat → Rat)
    (attempt : Nat → Option String) :
    ∀ (ports : List Nat) (k : Nat) (recs : List BankServer.AttemptRec),
      (∀ rec ∈ recs, rec.connTimeout = TIMEOUT) →
      ∀ rec ∈ (BankServer.forward_to_peerAux TIMEOUT elapsed attempt k ports recs).2,
        rec.connTimeout = TIMEOUT := by
  intro ports
  induction ports with
  | nil =>
    intro k recs hrecs
    simpa [BankServer.forward_to_peerAux] using hrecs
  | cons p rest ih =>
    intro k recs hrecs
    simp only [BankServer.forward_to_peerAux]
    by_cases hto : elapsed k > TIMEOUT
    · rw [if_pos hto]
      exact hrecs
    · rw [if_neg hto]
      cases hat : attempt k with
      | some r =>
        simp only [hat]
        intro rec hrec
        rcases List.mem_append.mp hrec with h | h
        · exact hrecs rec h
        · simp only [List.mem_singleton] at h
          rw [h]
      | none =>
        simp only [hat]
        refine ih (k + 1) (recs ++ [⟨p, TIMEOUT, elapsed k⟩]) ?_
        intro rec hrec
        rcases List.mem_append.mp hrec with h | h
        · exact hrecs rec h
        · simp only [List.mem_singleton] at h
          rw [h]

/-- C4: the claim's second half asserts each attempt's connection timeout is
no larger than the budget remaining when the attempt starts.  The source
passes the constant `TIMEOUT` to every `socket.create_connection` call:
with budget 5 and 3 already elapsed at the first check, the attempt is
opened with connection timeout 5, which exceeds the remaining budget 2. -/
theorem C4_counterexample :
    (BankServer.forward_to_peer 5 (fun _ => 3) (fun _ => some "AD")).2
      = [⟨65525, 5, 3⟩] ∧ ¬ ((5 : Rat) ≤ 5 - 3) :=
  ⟨rfl, by norm_num⟩

/-- C4 (amended): before each connection attempt the forwarder compares
elapsed time against the budget and, once it is exceeded, stops iterating
and returns the request-timeout `ER` response without starting a new
attempt; but each individual attempt's connection timeout is the full
budget `TIMEOUT`, not capped to the budget remaining when the attempt
starts. -/
theorem C4_claim (TIMEOUT : Rat) (elapsed : Nat → Rat)
    (attempt : Nat → Option String) :
    (∀ m, m < 11 →
      (∀ j, j < m → elapsed j ≤ TIMEOUT ∧ attempt j = none) →
      elapsed m > TIMEOUT →
      (BankServer.forward_to_peer TIMEOUT elapsed attempt).1 = "ER Request timeout" ∧
      (BankServer.forward_to_peer TIMEOUT elapsed attempt).2.length = m) ∧
    (∀ rec ∈ (BankServer.forward_to_peer TIMEOUT elapsed attempt).2,
      rec.connTimeout = TIMEOUT) := by
  constructor
  · intro m hm hfail hover
    have hlen : BankServer.possible_ports.length = 11 := by
      simp [BankServer.possible_ports]
    have h := forward_to_peerAux_timeout TIMEOUT elapsed attempt
      BankServer.possible_ports m 0 [] (by rw [hlen]; exact hm)
      (fun j hj => by simpa using hfail j hj) (by simpa using hover)
    simpa [BankServer.forward_to_peer] using h
  · exact forward_to_peerAux_connTimeout TIMEOUT elapsed attempt
      BankServer.possible_ports 0 [] (by simp)

/-- C4 witness: the theorem applied with budget 5 and elapsed time 6 already
at the first check: no attempt is started and the result is the
request-timeout response; and with every record of that run carrying the
full budget as its connection timeout (vacuously, the trace is empty). -/
theorem C4_witness :
    ((6 : Rat) > 5) ∧
    (BankServer.forward_to_peer 5 (fun _ => 6) (fun _ => none)).1
      = "ER Request timeout" ∧
    (BankServer.forward_to_peer 5 (fun _ => 6) (fun _ => none)).2.length = 0 :=
  ⟨by norm_num,
   ((C4_claim 5 (fun _ => 6) (fun _ => none)).1 0 (by omega)
      (fun j hj => absurd hj (Nat.not_lt_zero j)) (by norm_num)).1,
   ((C4_claim 5 (fun _ => 6) (fun _ => none)).1 0 (by omega)
      (fun j hj => absurd hj (Nat.not_lt_zero j)) (by norm_num)).2⟩

/-- C5: the candidate ports are the fixed contiguous ascending range
65525–65535 of 11 ports; the first attempt that yields a response
terminates the iteration with that response (exactly `m + 1` attempts
started); a failed attempt moves on to the next candidate; and if all 11
candidates fail without the budget expiring, the result is the
peer-unreachable response `ER Peer connection failed` after exactly 11
attempts. -/
theorem C5_claim (TIMEOUT : Rat) (elapsed : Nat → Rat)
    (attempt : Nat → Option String) :
    BankServer.possible_ports.length = 11 ∧
    List.Chain' (fun a b => b = a + 1) BankServer.possible_ports ∧
    BankServer.possible_ports.head? = some 65525 ∧
    (∀ m r, m < 11 →
      (∀ j, j < m → elapsed j ≤ TIMEOUT ∧ attempt j = none) →
      elapsed m ≤ TIMEOUT → attempt m = some r →
      (BankServer.forward_to_peer TIMEOUT elapsed attempt).1 = r ∧
      (BankServer.forward_to_peer TIMEOUT elapsed attempt).2.length = m + 1) ∧
    ((∀ j, j < 11 → elapsed j ≤ TIMEOUT ∧ attempt j = none) →
      (BankServer.forward_to_peer TIMEOUT elapsed attempt).1
        = "ER Peer connection failed" ∧
      (BankServer.forward_to_peer TIMEOUT elapsed attempt).2.length = 11) := by
  have hlen : BankServer.possible_ports.length = 11 := by
    simp [BankServer.possible_ports]
  have hports : BankServer.possible_ports
      = [65525, 65526, 65527, 65528, 65529, 65530, 65531, 65532, 65533, 65534,
         65535] := rfl
  refine ⟨hlen, by rw [hports]; simp [List.chain'_cons, List.chain'_singleton],
    by rw [hports]; rfl, ?_, ?_⟩
  · intro m r hm hfail hok hres
    have h := forward_to_peerAux_success TIMEOUT elapsed attempt r
      BankServer.possible_ports m 0 [] (by rw [hlen]; exact hm)
      (fun j hj => by simpa using hfail j hj) (by simpa using hok)
      (by simpa using hres)
    simpa [BankServer.forward_to_peer] using h
  · intro hfail
    have h := forward_to_peerAux_exhaust TIMEOUT elapsed attempt
      BankServer.possible_ports 0 []
      (fun j hj => by simpa using hfail j (by rwa [hlen] at hj))
    simpa [BankServer.forward_to_peer, hlen] using h

/-- C5 witness: the theorem applied with a response `AB 100` received on the
very first attempt, within a budget of 5: the response is returned
immediately after exactly one attempt. -/
theorem C5_witness :
    ((0 : Rat) ≤ 5) ∧
    (BankServer.forward_to_peer 5 (fun _ => 0) (fun _ => some "AB 100")).1
      = "AB 100" ∧
    (BankServer.forward_to_peer 5 (fun _ => 0) (fun _ => some "AB 100")).2.length = 1 :=
  ⟨by norm_num,
   ((C5_claim 5 (fun _ => 0) (fun _ => some "AB 100")).2.2.2.1 0 "AB 100"
      (by omega) (fun j hj => absurd hj (Nat.not_lt_zero j)) (by norm_num) rfl).1,
   ((C5_claim 5 (fun _ => 0) (fun _ => some "AB 100")).2.2.2.1 0 "AB 100"
      (by omega) (fun j hj => absurd hj (Nat.not_lt_zero j)) (by norm_num) rfl).2⟩

/-- A slash-free character list is returned whole by the slash splitter. -/
theorem splitSlashAux_no_slash : ∀ l : List Char, '/' ∉ l → splitSlashAux l = [l] := by
  intro l
  induction l with
  | nil => intro _; rfl
  | cons c cs ih =>
    intro h
    have hc : ¬ (c = '/') := fun hh => h (hh ▸ List.mem_cons_self c cs)
    simp only [splitSlashAux]
    rw [if_neg hc, ih (fun hm => h (List.mem_cons_of_mem c hm))]

/-- Splitting `a ++ '/' :: b` on `/` yields exactly `[a, b]` when neither
side contains a slash. -/
theorem splitSlashAux_append : ∀ a b : List Char, '/' ∉ a → '/' ∉ b →
    splitSlashAux (a ++ '/' :: b) = [a, b] := by
  intro a
  induction a with
  | nil =>
    intro b _ hb
    simp only [List.nil_append, splitSlashAux, eq_self_iff_true, if_true]
    rw [splitSlashAux_no_slash b hb]
  | cons c cs ih =>
    intro b ha hb
    have hc : ¬ (c = '/') := fun hh => ha (hh ▸ List.mem_cons_self c cs)
    simp only [List.cons_append, splitSlashAux, List.append_eq]
    rw [if_neg hc, ih b (fun hm => ha (List.mem_cons_of_mem c hm)) hb]

/-- String-level version: `"x/y".split("/") == ["x", "y"]` whenever neither
`x` nor `y` contains a slash. -/
theorem pySplitSlash_append (x y : String) (hx : '/' ∉ x.data) (hy : '/' ∉ y.data) :
    pySplitSlash (x ++ "/" ++ y) = [x, y] := by
  have hdata : (x ++ "/" ++ y).data = x.data ++ '/' :: y.data := by
    simp [String.data_append]
  simp only [pySplitSlash, hdata, splitSlashAux_append x.data y.data hx hy,
    List.map_cons, List.map_nil]

/-- C10: AC binds the new account to the client's observed ip and answers
`AC <number>/<clientIp>`; and for a client whose observed ip differs (as a
string) from the configured local address, every subsequent AD, AW, AB or
AR on the returned reference is forwarded to the client's own ip as though
it were a peer bank — the handler returns the forwarder's response and
invokes no local Account Store operation, even though the account lives in
the local store.  (`hnslash` holds for every decimal-printed number and is
discharged concretely in the witness.) -/
theorem C10_claim (localIp clientIp : String) (st st2 : Store)
    (fwd : String → String → String) (rand : Nat → Nat) (n : Nat)
    (amtTok : String) (amt : Int)
    (hip : clientIp ≠ localIp)
    (hcslash : '/' ∉ clientIp.data)
    (hnslash : '/' ∉ (toString n).data)
    (hex : st.account_exists (rand 0) = false)
    (hcr : st.create_account (rand 0) clientIp = true)
    (hamt : pyParseInt amtTok = some amt) :
    BankServer.create_account rand st clientIp
      = ("AC " ++ toString (rand 0) ++ "/" ++ clientIp,
         ⟨[StoreOp.account_exists (rand 0),
           StoreOp.create_account (rand 0) clientIp], []⟩) ∧
    CommandHandler.handle_ad localIp st2 fwd
        ["AD", toString n ++ "/" ++ clientIp, amtTok]
      = (fwd clientIp ("AD " ++ toString n ++ "/" ++ clientIp ++ " " ++ toString amt),
         ⟨[], [(clientIp,
                "AD " ++ toString n ++ "/" ++ clientIp ++ " " ++ toString amt)]⟩) ∧
    CommandHandler.handle_aw localIp st2 fwd
        ["AW", toString n ++ "/" ++ clientIp, amtTok]
      = (fwd clientIp ("AW " ++ toString n ++ "/" ++ clientIp ++ " " ++ toString amt),
         ⟨[], [(clientIp,
                "AW " ++ toString n ++ "/" ++ clientIp ++ " " ++ toString amt)]⟩) ∧
    CommandHandler.handle_ab localIp st2 fwd ["AB", toString n ++ "/" ++ clientIp]
      = (fwd clientIp ("AB " ++ toString n ++ "/" ++ clientIp),
         ⟨[], [(clientIp, "AB " ++ toString n ++ "/" ++ clientIp)]⟩) ∧
    CommandHandler.handle_ar localIp st2 fwd ["AR", toString n ++ "/" ++ clientIp]
      = (fwd clientIp ("AR " ++ toString n ++ "/" ++ clientIp),
         ⟨[], [(clientIp, "AR " ++ toString n ++ "/" ++ clientIp)]⟩) := by
  have hsplit : pySplitSlash (toString n ++ "/" ++ clientIp) = [toString n, clientIp] :=
    pySplitSlash_append (toString n) clientIp hnslash hcslash
  refine ⟨?_, ?_, ?_, ?_, ?_⟩
  · simp [BankServer.create_account, BankServer.create_accountAux, hex, hcr]
  · simp [CommandHandler.handle_ad, hamt, hsplit, hip]
  · simp [CommandHandler.handle_aw, hamt, hsplit, hip]
  · simp [CommandHandler.handle_ab, hsplit, hip]
  · simp [CommandHandler.handle_ar, hsplit, hip]

/-- C10 witness: the theorem applied with local address `1.2.3.4`, client ip
`5.6.7.8` and the constant draw 54231: AC answers `AC 54231/5.6.7.8`, and a
subsequent AB on that reference is forwarded to `5.6.7.8` with no local
store operation. -/
theorem C10_witness :
    ("5.6.7.8" : String) ≠ "1.2.3.4" ∧
    BankServer.create_account testRand testStore "5.6.7.8"
      = ("AC " ++ toString (testRand 0) ++ "/" ++ "5.6.7.8",
         ⟨[StoreOp.account_exists (testRand 0),
           StoreOp.create_account (testRand 0) "5.6.7.8"], []⟩) ∧
    CommandHandler.handle_ab "1.2.3.4" testStore testFwd
        ["AB", toString (54231 : Nat) ++ "/" ++ "5.6.7.8"]
      = (testFwd "5.6.7.8" ("AB " ++ toString (54231 : Nat) ++ "/" ++ "5.6.7.8"),
         ⟨[], [("5.6.7.8", "AB " ++ toString (54231 : Nat) ++ "/" ++ "5.6.7.8")]⟩) :=
  ⟨by decide,
   (C10_claim "1.2.3.4" "5.6.7.8" testStore testStore testFwd testRand 54231
      "100" 100 (by decide) (by decide) (by decide) rfl rfl rfl).1,
   (C10_claim "1.2.3.4" "5.6.7.8" testStore testStore testFwd testRand 54231
      "100" 100 (by decide) (by decide) (by decide) rfl rfl rfl).2.2.2.1⟩
